import Mathlib

/-!
Shallow embedding of the CodeRatchet core (`coderatchet/core/ratchet.py`,
`coderatchet/core/comparison.py`, `coderatchet/core/recent_failures.py`,
`coderatchet/core/utils.py`) and proofs about it.

Compiled regular expressions are embedded as abstract Boolean matchers:
a `re.Pattern` whose `search(line)` is used line-by-line becomes a function
`String → Bool`, and a pattern whose `search(content, pos)` is used with a
position argument becomes `String → Nat → Bool` (does the pattern match
anywhere at index ≥ pos).  Mutation of the frozen attrs classes through
`object.__setattr__` is embedded by explicit state passing: a method that
rewrites `self._failures` becomes a function taking the old failure list
and returning the new one.
-/

namespace CodeRatchet

/-- Structure `TestFailure` from `core/ratchet.py` (lines 20-31): a record of a single
ratchet violation with optional commit attribution fields, all defaulting
to `None`. -/
structure TestFailure where
  test_name : String
  filepath : String
  line_number : Nat
  line_contents : String
  commit_hash : Option String := none
  commit_message : Option String := none
  commit_author : Option String := none
  commit_date : Option String := none
deriving DecidableEq

/-- The keyword arguments accepted by `TestFailure.from_failure` in
`core/ratchet.py`: any of the eight fields may be supplied as an override
(`kwargs.get(name, failure.name)`); an absent key is `none`. -/
structure FromFailureKwargs where
  test_name : Option String := none
  filepath : Option String := none
  line_number : Option Nat := none
  line_contents : Option String := none
  commit_hash : Option (Option String) := none
  commit_message : Option (Option String) := none
  commit_author : Option (Option String) := none
  commit_date : Option (Option String) := none

/-- Method `TestFailure.from_failure` from `core/ratchet.py` (lines 37-56).  The
constructor call passes only seven of the eight fields: `commit_author` is
not among the arguments, so the new instance always gets the class default
`None` for it, whatever the source failure or the kwargs hold. -/
def TestFailure.from_failure (failure : TestFailure) (kw : FromFailureKwargs) :
    TestFailure :=
  { test_name := kw.test_name.getD failure.test_name
    filepath := kw.filepath.getD failure.filepath
    line_number := kw.line_number.getD failure.line_number
    line_contents := kw.line_contents.getD failure.line_contents
    commit_hash := kw.commit_hash.getD failure.commit_hash
    commit_date := kw.commit_date.getD failure.commit_date
    commit_message := kw.commit_message.getD failure.commit_message
    commit_author := none }

/-- Does `needle` occur as a contiguous run starting at some suffix of the
character list? -/
def charsContain (needle : List Char) : List Char → Bool
  | [] => needle.isEmpty
  | c :: cs => needle.isPrefixOf (c :: cs) || charsContain needle cs

/-- Python's substring test `needle in hay`. -/
def strContains (hay needle : String) : Bool :=
  charsContain needle.toList hay.toList

/-- Structure `RegexBasedRatchetTest` from `core/ratchet.py` (lines 192-226): the
configuration that survives a successful `__attrs_post_init__`.  `regex`
embeds the compiled pattern's `search` on a single line. -/
structure RegexBasedRatchetTest where
  name : String
  pattern : String := ""
  regex : String → Bool
  exclude_test_files : Bool := false
  include_file_regex : Option (String → Bool) := none

/-- Method `RegexBasedRatchetTest.should_include_file` from `core/ratchet.py`
(lines 266-284): excluded when `exclude_test_files` and the path contains
`"test_"`; otherwise governed by `include_file_regex` when set (a compiled
pattern object is always truthy), else included. -/
def RegexBasedRatchetTest.should_include_file (t : RegexBasedRatchetTest)
    (filepath : String) : Bool :=
  if t.exclude_test_files && strContains filepath "test_" then
    false
  else
    match t.include_file_regex with
    | some r => r filepath
    | none => true

/-- The loop body of `RegexBasedRatchetTest.collect_failures_from_lines`
(`core/ratchet.py` lines 239-251): `for i, line in enumerate(lines, start=1)`,
appending a failure for each line the regex search hits.  The first argument
is the current 1-based line counter. -/
def collectLinesLoop (t : RegexBasedRatchetTest) (filepath : String) :
    Nat → List String → List TestFailure
  | _, [] => []
  | i, line :: rest =>
    (if t.regex line then
      [{ test_name := t.name, filepath := filepath, line_number := i,
         line_contents := line }]
    else []) ++ collectLinesLoop t filepath (i + 1) rest

/-- Method `RegexBasedRatchetTest.collect_failures_from_lines` from
`core/ratchet.py` (lines 228-251).  When the file fails the inclusion
check the method returns early, leaving `self._failures` (here `failures0`)
untouched; otherwise `self._failures` is replaced wholesale by this file's
matches (`object.__setattr__(self, "_failures", tuple(failures))`). -/
def RegexBasedRatchetTest.collect_failures_from_lines
    (t : RegexBasedRatchetTest) (lines : List String) (filepath : String)
    (failures0 : List TestFailure) : List TestFailure :=
  if !t.should_include_file filepath then failures0
  else collectLinesLoop t filepath 1 lines

/-- Method `RatchetTest.get_total_count_from_files` from `core/ratchet.py`
(lines 120-126): clear the failures, then for each file passing the
inclusion check run the per-file collection (which, for the regex test,
replaces the failure tuple), and finally return `len(self.failures)`.
A file is a pair of its path and its list of lines. -/
def RegexBasedRatchetTest.get_total_count_from_files
    (t : RegexBasedRatchetTest) (files : List (String × List String)) :
    List TestFailure × Nat :=
  let failures := files.foldl
    (fun fs file =>
      if t.should_include_file file.1 then
        t.collect_failures_from_lines file.2 file.1 fs
      else fs)
    []
  (failures, failures.length)

/-- Specification-side definition, following the spec's words: "A RatchetTestDefinition evaluates against a set
of files by: (1) clearing its failure list; (2) for each file passing the
File Selector, invoking its Match Strategy and accumulating Failures;
(3) exposing `total_count = len(failures)`" — the total is the number of
matches summed over all included files. -/
def specAccumulatedTotal (t : RegexBasedRatchetTest)
    (files : List (String × List String)) : Nat :=
  (files.filter (fun file => t.should_include_file file.1)).foldl
    (fun n file => n + (t.collect_failures_from_lines file.2 file.1 []).length)
    0

/-- Remove all trailing occurrences of a character (Python `s.rstrip(c)`). -/
def dropTrailingChar (c : Char) (s : String) : String :=
  String.mk (s.toList.reverse.dropWhile (· == c)).reverse

/-- Python whitespace characters recognised by `str.rstrip()` with no
argument. -/
def isPyWhitespace (c : Char) : Bool :=
  c == ' ' || c == '\t' || c == '\n' || c == '\r' || c == '\x0b' || c == '\x0c'

/-- Python `line.rstrip()`: strip trailing whitespace. -/
def pyRstrip (s : String) : String :=
  String.mk (s.toList.reverse.dropWhile isPyWhitespace).reverse

/-- Glob matching as `fnmatch.fnmatch` performs it on the patterns in play:
`*` matches any run of characters, `?` any single character, anything else
itself.  (Character classes `[...]` are not used by the claims under
consideration and are not modelled.)  Each step shortens pattern or string,
so fuel `p.length + s.length + 1` — as supplied by `globMatch` below — is
never exhausted; the fuel only makes the recursion structural. -/
def globMatchFuel : Nat → List Char → List Char → Bool
  | 0, _, _ => false
  | _ + 1, [], s => s.isEmpty
  | fuel + 1, '*' :: ps, [] => globMatchFuel fuel ps []
  | fuel + 1, '*' :: ps, c :: cs =>
    globMatchFuel fuel ps (c :: cs) || globMatchFuel fuel ('*' :: ps) cs
  | _ + 1, '?' :: _, [] => false
  | fuel + 1, '?' :: ps, _ :: cs => globMatchFuel fuel ps cs
  | _ + 1, _ :: _, [] => false
  | fuel + 1, p :: ps, c :: cs => p == c && globMatchFuel fuel ps cs

/-- Glob matching with always-sufficient fuel. -/
def globMatch (p s : List Char) : Bool :=
  globMatchFuel (p.length + s.length + 1) p s

/-- Python `fnmatch(name, pattern)` (first argument the name, second the
pattern), on POSIX where `normcase` is the identity. -/
def fnmatchStr (nameArg pat : String) : Bool :=
  globMatch pat.toList nameArg.toList

/-- Python `s.split(sep)` for a one-character separator: groups between
occurrences of the separator, keeping empty groups. -/
def splitCharsOn (sep : Char) : List Char → List (List Char)
  | [] => [[]]
  | x :: xs =>
    let r := splitCharsOn sep xs
    if x == sep then [] :: r
    else
      match r with
      | [] => [[x]]
      | g :: gs => (x :: g) :: gs

/-- Python `s.split(sep)` on strings, for a one-character separator. -/
def pySplitChar (sep : Char) (s : String) : List String :=
  (splitCharsOn sep s.toList).map String.mk

/-- Helper for Python `s.split()` (no separator): split on runs of
whitespace, dropping empty groups; `acc` is the current group, reversed. -/
def splitWsAux : List Char → List Char → List (List Char)
  | [], acc => if acc.isEmpty then [] else [acc.reverse]
  | c :: cs, acc =>
    if isPyWhitespace c then
      (if acc.isEmpty then [] else [acc.reverse]) ++ splitWsAux cs []
    else splitWsAux cs (c :: acc)

/-- Python `s.split()` with no separator. -/
def pySplitWs (s : String) : List String :=
  (splitWsAux s.toList []).map String.mk

/-- Python `s.startswith(pre)`. -/
def strStartsWith (s pre : String) : Bool :=
  pre.toList.isPrefixOf s.toList

/-- Python `s.endswith(suf)`. -/
def strEndsWith (s suf : String) : Bool :=
  suf.toList.reverse.isPrefixOf s.toList.reverse

/-- Drop the first `n` characters of a string (Python `s[n:]`). -/
def strDropLeft (s : String) (n : Nat) : String :=
  String.mk (s.toList.drop n)

/-- Specification-side definition, following the spec's words: "Line Match:
for each line (1-based), if the pattern matches, emit one Failure at that
line containing the matched line's text (trailing whitespace stripped)." -/
def specLineMatchFailures (t : RegexBasedRatchetTest) (lines : List String)
    (filepath : String) : List TestFailure :=
  lines.enum.filterMap (fun p =>
    if t.regex p.2 then
      some { test_name := t.name, filepath := filepath,
             line_number := p.1 + 1, line_contents := pyRstrip p.2 }
    else none)

/-- Structure `FullFileRatchetTest` from `core/ratchet.py` (lines 375-405).
Its `searchFrom` embeds the compiled pattern's two-argument
`Pattern.search(string, pos)`: does the pattern match somewhere at index
at least `pos` of the string. -/
structure FullFileRatchetTest where
  name : String
  pattern : String := ""
  searchFrom : String → Nat → Bool
  regex_flags : Nat := 0
  exclude_test_files : Bool := false
  include_file_regex : Option (String → Bool) := none

/-- Method `FullFileRatchetTest.should_include_file`, inherited from
`RegexBasedRatchetTest` (`core/ratchet.py` lines 266-284). -/
def FullFileRatchetTest.should_include_file (t : FullFileRatchetTest)
    (filepath : String) : Bool :=
  if t.exclude_test_files && strContains filepath "test_" then
    false
  else
    match t.include_file_regex with
    | some r => r filepath
    | none => true

/-- Method `FullFileRatchetTest.collect_failures_from_lines` from
`core/ratchet.py` (lines 381-405): join the lines with newlines and run
`self.regex.search(content, self.regex_flags)` — the second positional
argument of `Pattern.search` is `pos`, the start index, so `regex_flags`
lands there.  Only on a match is `self._failures` overwritten (with the
single whole-blob failure at line 1); on no match the method falls through,
leaving the previous failures (`failures0`) in place. -/
def FullFileRatchetTest.collect_failures_from_lines (t : FullFileRatchetTest)
    (lines : List String) (filepath : String)
    (failures0 : List TestFailure) : List TestFailure :=
  if !t.should_include_file filepath then failures0
  else
    let content := String.intercalate "\n" lines
    if t.searchFrom content t.regex_flags then
      [{ test_name := t.name, filepath := filepath, line_number := 1,
         line_contents := content }]
    else failures0

/-- Structure `TwoPassRatchetTest` from `core/ratchet.py` (lines 413-504).
`second_pass_regex` embeds the compiled `second_pass_pattern`;
the optional `first_pass_failure_to_second_pass_regex_part` embeds the
caller-supplied function composed with `re.compile` of its result (a
failure-indexed matcher).  In the source that function is referenced only
by `__attrs_post_init__` for validation, never during collection. -/
structure TwoPassRatchetTest where
  name : String
  first_pass : RegexBasedRatchetTest
  second_pass_pattern : String := ""
  second_pass_regex : String → Bool
  first_pass_failure_to_second_pass_regex_part :
    Option (TestFailure → String → Bool) := none

/-- Method `TwoPassRatchetTest.collect_failures_from_lines` from
`core/ratchet.py` (lines 472-504): run the first pass (which replaces the
first-pass test's failure state, embedded here by passing and returning it
explicitly); then for each first-pass failure scan `lines[failure.line_number:]`
for a match of the configured second-pass regex, and report the candidate
(with this test's name, same path, line number, and text) exactly when one
of those following lines matches. -/
def TwoPassRatchetTest.collect_failures_from_lines (t : TwoPassRatchetTest)
    (lines : List String) (filepath : String)
    (first_pass_failures0 : List TestFailure) : List TestFailure :=
  let first_pass_failures :=
    t.first_pass.collect_failures_from_lines lines filepath first_pass_failures0
  first_pass_failures.filterMap (fun failure =>
    if (lines.drop failure.line_number).any (fun l => t.second_pass_regex l) then
      some { test_name := t.name, filepath := filepath,
             line_number := failure.line_number,
             line_contents := failure.line_contents }
    else none)

/-- The property claim C2 asserts of `TwoPassRatchetTest`: a first-pass
candidate is reported (unchanged in path and line number) if and only if
some line after the candidate's line matches the second-pass pattern
derived by applying the caller-supplied function `derived` to that
candidate failure. -/
def twoPassReportsByDerivedPattern (t : TwoPassRatchetTest)
    (derived : TestFailure → String → Bool) (lines : List String)
    (filepath : String) (first_pass_failures0 : List TestFailure) : Prop :=
  ∀ f ∈ t.first_pass.collect_failures_from_lines lines filepath first_pass_failures0,
    (({ test_name := t.name, filepath := filepath, line_number := f.line_number,
        line_contents := f.line_contents } : TestFailure)
        ∈ t.collect_failures_from_lines lines filepath first_pass_failures0
      ↔ (lines.drop f.line_number).any (fun l => derived f l) = true)

/-- Function `to_second_pass` from `core/ratchet.py` (lines 408-410), composed
with compilation of the produced fragment `self\.<ClassName>\.`: take the
second whitespace-separated word of the failing line, strip trailing colons,
and match lines containing `self.<ClassName>.`. -/
def toSecondPassMatcher (failure : TestFailure) : String → Bool :=
  let className := dropTrailingChar ':' ((pySplitWs failure.line_contents).getD 1 "")
  fun line => strContains line ("self." ++ className ++ ".")

/-- Compiled form of the `^(?!.*test_.*\.py$).*\.py$` pattern installed by
`RatchetTest.__attrs_post_init__` when `exclude_test_files` is set: for
newline-free paths this matches exactly the paths ending in `.py` that do
not contain `test_`. -/
def defaultNonTestPyMatcher (p : String) : Bool :=
  p.endsWith ".py" && !strContains p "test_"

/-- Method `RegexBasedRatchetTest.__attrs_post_init__` from `core/ratchet.py`
(lines 202-221), as a smart constructor.  `compiled` is the outcome of
`re.compile(self.pattern)`; `none` embeds an `re.error` (invalid pattern
syntax).  The base `__attrs_post_init__` runs first and rewrites
`include_file_regex` when `exclude_test_files` is set; then the pattern is
compiled and every match example must pass `regex.search`, every non-match
example must fail it, a violation raising `RatchetError`. -/
def mkRegexBasedRatchetTest (name pattern : String)
    (compiled : Option (String → Bool))
    (match_examples non_match_examples : List String)
    (exclude_test_files : Bool)
    (include_file_regex : Option (String → Bool)) :
    Except String RegexBasedRatchetTest :=
  let include_file_regex' :=
    if exclude_test_files then some defaultNonTestPyMatcher
    else include_file_regex
  match compiled with
  | none => Except.error ("Invalid regex pattern: " ++ pattern)
  | some regex =>
    match match_examples.find? (fun e => !regex e) with
    | some e => Except.error ("Match example does not match pattern: " ++ e)
    | none =>
      match non_match_examples.find? (fun e => regex e) with
      | some e => Except.error ("Non-match example matches pattern: " ++ e)
      | none => Except.ok
          { name := name, pattern := pattern, regex := regex,
            exclude_test_files := exclude_test_files,
            include_file_regex := include_file_regex' }

/-- Count of failures a compiled pattern produces on one example line "under
the strategy in isolation": the Line Match strategy run on the single-line
file `[example]` at a neutral path. -/
def strategyCountOnExample (r : String → Bool) (ex : String) : Nat :=
  (({ name := "example_check", regex := r } : RegexBasedRatchetTest).collect_failures_from_lines
    [ex] "example_path" []).length

/-- Values carried by `percentage_change`: a finite float, embedded as an
exact rational, or `float("inf")`. -/
inductive PercentChange where
  | fin (q : ℚ)
  | posInf
deriving DecidableEq

/-- Dataclass `RatchetComparison` from `core/comparison.py` (lines 17-26). -/
structure RatchetComparison where
  test_name : String
  current_count : Nat
  previous_count : Nat
  difference : Int
  percentage_change : PercentChange
  is_worse : Bool
deriving DecidableEq

/-- One iteration of the comparison loop in `compare_ratchets`
(`core/comparison.py` lines 58-77), given the two counts looked up for the
test. -/
def comparisonFor (t : RegexBasedRatchetTest) (current previous : Nat) :
    RatchetComparison :=
  let diff : Int := (current : Int) - (previous : Int)
  let percent : PercentChange :=
    if current = 0 ∧ previous = 0 then .fin 0
    else if 0 < previous then .fin ((diff : ℚ) / (previous : ℚ) * 100)
    else .posInf
  { test_name := t.name, current_count := current, previous_count := previous,
    difference := diff, percentage_change := percent,
    is_worse := decide (0 < diff) }

/-- Order on comparisons induced by the sort key
`lambda x: (-x.difference, x.test_name)` of `comparisons.sort` in
`compare_ratchets`: descending difference, ties broken by test name
ascending. -/
def cmpKeyLe (a b : RatchetComparison) : Prop :=
  b.difference < a.difference ∨
    (a.difference = b.difference ∧ a.test_name ≤ b.test_name)

instance : DecidableRel cmpKeyLe := fun a b => by
  unfold cmpKeyLe; infer_instance

instance : IsTotal RatchetComparison cmpKeyLe := by
  constructor
  intro a b
  rcases lt_trichotomy a.difference b.difference with h | h | h
  · exact Or.inr (Or.inl h)
  · rcases le_total a.test_name b.test_name with h2 | h2
    · exact Or.inl (Or.inr ⟨h, h2⟩)
    · exact Or.inr (Or.inr ⟨h.symm, h2⟩)
  · exact Or.inl (Or.inl h)

instance : IsTrans RatchetComparison cmpKeyLe := by
  constructor
  intro a b c hab hbc
  rcases hab with h1 | ⟨e1, l1⟩ <;> rcases hbc with h2 | ⟨e2, l2⟩
  · exact Or.inl (h2.trans h1)
  · exact Or.inl (e2 ▸ h1)
  · exact Or.inl (e1 ▸ h2)
  · exact Or.inr ⟨e1.trans e2, l1.trans l2⟩

/-- State of the repository at one git reference, as `compare_ratchets`
observes it after `_checkout_state`: the per-test values that
`load_ratchet_count` reads from the checked-out `ratchet_values.json`
(`counts.get(test.name, 0)`, with errors defaulting to 0, folded into a
total function), and the checked-out tree's selected files. -/
structure RepoState where
  stored_counts : String → Nat
  files : List (String × List String)

/-- Function `compare_ratchets` from `core/comparison.py` (lines 29-81):
check out the previous reference and record `_get_ratchet_counts` — which
is `load_ratchet_count(test.name)` per test, reading the stored values of
the checked-out state — then the same for the current reference, build one
`RatchetComparison` per test from the two looked-up counts, and sort by
`(-difference, test_name)`. -/
def compare_ratchets (tests : List RegexBasedRatchetTest)
    (previous_state current_state : RepoState) : List RatchetComparison :=
  let previous_counts := previous_state.stored_counts
  let current_counts := current_state.stored_counts
  let comparisons := tests.map (fun t =>
    comparisonFor t (current_counts t.name) (previous_counts t.name))
  comparisons.insertionSort cmpKeyLe

/-- The property claim C3 asserts of the comparator: the counts entering
every comparison are the results of evaluating the ratchet tests against
the respective checked-out file trees. -/
def comparatorUsesEvaluatedCounts (tests : List RegexBasedRatchetTest)
    (previous_state current_state : RepoState) : Prop :=
  ∀ c ∈ compare_ratchets tests previous_state current_state, ∀ t ∈ tests,
    t.name = c.test_name →
      c.previous_count = specAccumulatedTotal t previous_state.files ∧
      c.current_count = specAccumulatedTotal t current_state.files


/-- Function `should_exclude_file` from `core/utils.py` (lines 179-228).
Path normalization `str(Path(filepath)).replace("\\", "/")` is the
identity on the POSIX-style relative paths considered here;
`Path(filepath).name` is the last `/`-separated component.  Directory
patterns (no leading `!`, trailing `/`) are checked first against every
path component and win outright; then any negation pattern (leading `!`)
that matches — against the full path when it contains `/`, else against
the bare filename — forces inclusion; finally the remaining patterns
exclude on a full-path or bare-filename match. -/
def should_exclude_file (filepath : String)
    (exclusion_patterns : List String) : Bool :=
  let filename := (pySplitChar '/' filepath).getLastD filepath
  if exclusion_patterns.any (fun pat =>
      !strStartsWith pat "!" && strEndsWith pat "/" &&
        (pySplitChar '/' filepath).any (fun part =>
          fnmatchStr part (dropTrailingChar '/' pat))) then
    true
  else if exclusion_patterns.any (fun pat =>
      strStartsWith pat "!" &&
        (let pwn := strDropLeft pat 1
         if strContains pwn "/" then fnmatchStr filepath pwn
         else fnmatchStr filename pwn)) then
    false
  else
    exclusion_patterns.any (fun pat =>
      !strStartsWith pat "!" && !strEndsWith pat "/" &&
        (if strContains pat "/" then fnmatchStr filepath pat
         else fnmatchStr filename pat))

/-- Structure `BrokenRatchet` from `core/recent_failures.py` (lines 22-32);
the commit date is embedded as the raw unix timestamp. -/
structure BrokenRatchet where
  test_name : String
  filepath : String
  line_number : Nat
  line_contents : String
  commit_hash : Option String := none
  commit_date : Option Nat := none
  commit_message : Option String := none
deriving DecidableEq

/-- Deduplication key used by `get_recently_broken_ratchets`
(`core/recent_failures.py` lines 217-223). -/
def failureKey (f : TestFailure) : String × String × Nat × String :=
  (f.test_name, f.filepath, f.line_number, f.line_contents)

/-- Inner loop of `get_recently_broken_ratchets` for one test over all files
(`core/recent_failures.py` lines 190-212): each call to
`collect_failures_from_lines` replaces the test's failure state (the first
component), and after each file a nonempty state is appended to the running
list (the second component).  A file failing the inclusion check leaves the
state holding the previous file's failures, which are then appended again;
the deduplication step downstream removes those repeats. -/
def runTestOverFiles (t : RegexBasedRatchetTest)
    (files : List (String × List String)) : List TestFailure :=
  (files.foldl
    (fun (st : List TestFailure × List TestFailure) file =>
      let fs := t.collect_failures_from_lines file.2 file.1 st.1
      (fs, if fs.isEmpty then st.2 else st.2 ++ fs))
    ([], [])).2

/-- Collection phase of `get_recently_broken_ratchets`: every test against
every file, accumulating into one list.  Files are pairs of path and
lines (`content.splitlines()`). -/
def collectAllFailures (tests : List RegexBasedRatchetTest)
    (files : List (String × List String)) : List TestFailure :=
  tests.foldl (fun acc t => acc ++ runTestOverFiles t files) []

/-- Deduplication preserving first occurrences, by `failureKey`
(`core/recent_failures.py` lines 214-226); `seen` is the set of keys already
emitted. -/
def dedupFailures : List TestFailure → List (String × String × Nat × String) →
    List TestFailure
  | [], _ => []
  | f :: fs, seen =>
    if failureKey f ∈ seen then dedupFailures fs seen
    else f :: dedupFailures fs (failureKey f :: seen)

/-- Order induced by `unique_failures.sort(key=lambda f: (f.filepath,
f.line_number))` in `get_recently_broken_ratchets`. -/
def recentKeyLe (a b : TestFailure) : Prop :=
  a.filepath < b.filepath ∨
    (a.filepath = b.filepath ∧ a.line_number ≤ b.line_number)

instance : DecidableRel recentKeyLe := fun a b => by
  unfold recentKeyLe; infer_instance

instance : IsTotal TestFailure recentKeyLe := by
  constructor
  intro a b
  rcases lt_trichotomy a.filepath b.filepath with h | h | h
  · exact Or.inl (Or.inl h)
  · rcases le_total a.line_number b.line_number with h2 | h2
    · exact Or.inl (Or.inr ⟨h, h2⟩)
    · exact Or.inr (Or.inr ⟨h.symm, h2⟩)
  · exact Or.inr (Or.inl h)

instance : IsTrans TestFailure recentKeyLe := by
  constructor
  intro a b c hab hbc
  rcases hab with h1 | ⟨e1, l1⟩ <;> rcases hbc with h2 | ⟨e2, l2⟩
  · exact Or.inl (h1.trans h2)
  · exact Or.inl (e2 ▸ h1)
  · exact Or.inl (e1 ▸ h2)
  · exact Or.inr ⟨e1.trans e2, l1.trans l2⟩

/-- Function `get_recently_broken_ratchets` from `core/recent_failures.py`
(lines 156-266), `include_commits=False` branch: collect, deduplicate,
sort by `(filepath, line_number)`, return `unique_failures[:limit]`. -/
def get_recently_broken_ratchets (tests : List RegexBasedRatchetTest)
    (files : List (String × List String)) (limit : Nat) : List TestFailure :=
  ((dedupFailures (collectAllFailures tests files) []).insertionSort
    recentKeyLe).take limit

/-- Commit attribution for one retained failure
(`core/recent_failures.py` lines 236-263): `gitLog` embeds
`git log -1 --format=%H %ct %s -- filepath` as an optional
(hash, timestamp, message) per path; empty output (`none`: a file with no
commit history) still yields the failure, with the attribution fields left
at their `None` defaults. -/
def attachCommitInfo (gitLog : String → Option (String × Nat × String))
    (f : TestFailure) : BrokenRatchet :=
  match gitLog f.filepath with
  | some (h, ts, msg) =>
    { test_name := f.test_name, filepath := f.filepath,
      line_number := f.line_number, line_contents := f.line_contents,
      commit_hash := some h, commit_date := some ts,
      commit_message := some msg }
  | none =>
    { test_name := f.test_name, filepath := f.filepath,
      line_number := f.line_number, line_contents := f.line_contents }

/-- Function `get_recently_broken_ratchets`, `include_commits=True` branch:
the retained failures `unique_failures[:limit]` each get commit attribution,
and the result is again cut to `[:limit]`. -/
def get_recently_broken_ratchets_with_commits
    (tests : List RegexBasedRatchetTest)
    (files : List (String × List String)) (limit : Nat)
    (gitLog : String → Option (String × Nat × String)) : List BrokenRatchet :=
  ((((dedupFailures (collectAllFailures tests files) []).insertionSort
    recentKeyLe).take limit).map (attachCommitInfo gitLog)).take limit

/-- Concrete line-match test flagging lines that contain `print(`. -/
def printTest : RegexBasedRatchetTest :=
  { name := "no_print", pattern := "print\\(",
    regex := fun l => strContains l "print(" }

/-- Two included files with one matching line each. -/
def twoFilesOneMatchEach : List (String × List String) :=
  [("a.py", ["print('a')"]), ("b.py", ["print('b')"])]

/-- Concrete first pass for the two-pass test: lines containing `class `. -/
def firstPassClassTest : RegexBasedRatchetTest :=
  { name := "first_pass", pattern := "class ",
    regex := fun l => strContains l "class " }

/-- Concrete two-pass test: configured second-pass pattern `XYZ`, with the
`to_second_pass` derivation function supplied. -/
def twoPassExample : TwoPassRatchetTest :=
  { name := "two_pass", first_pass := firstPassClassTest,
    second_pass_pattern := "XYZ",
    second_pass_regex := fun l => strContains l "XYZ",
    first_pass_failure_to_second_pass_regex_part := some toSecondPassMatcher }

/-- A class definition followed by a use of `self.Foo.`: the derived pattern
matches the second line, the configured `XYZ` pattern does not. -/
def twoPassLines : List String := ["class Foo:", "self.Foo.bar()"]

/-- Concrete test for the comparator claims. -/
def evalDivergeTest : RegexBasedRatchetTest :=
  { name := "t3", pattern := "print\\(",
    regex := fun l => strContains l "print(" }

/-- Previous state: nothing stored, no files. -/
def prevRepoState : RepoState := { stored_counts := fun _ => 0, files := [] }

/-- Current state: nothing stored, but the checked-out tree holds one file
with one matching line. -/
def curRepoState : RepoState :=
  { stored_counts := fun _ => 0, files := [("a.py", ["print('x')"])] }

/-- Concrete whole-file test for the literal `ab`, with
`regex_flags = 2` (the value of `re.IGNORECASE`): `searchFrom content pos`
is true when `ab` occurs at index at least `pos`. -/
def fullFileAbTest : FullFileRatchetTest :=
  { name := "full_ab", pattern := "ab",
    searchFrom := fun content pos =>
      charsContain "ab".toList (content.toList.drop pos),
    regex_flags := 2 }

/-- The same whole-file test with no flags configured. -/
def fullFileAbTestNoFlags : FullFileRatchetTest :=
  { fullFileAbTest with regex_flags := 0 }

/-- A stale failure left over from a previous evaluation. -/
def staleFailure : TestFailure :=
  { test_name := "full_ab", filepath := "old.py", line_number := 1,
    line_contents := "stale" }

end CodeRatchet



namespace CodeRatchet

theorem mem_collectLinesLoop (t : RegexBasedRatchetTest) (fp : String)
    (lines : List String) :
    ∀ (i : Nat) (f : TestFailure),
      f ∈ collectLinesLoop t fp i lines ↔
        ∃ j l, lines[j]? = some l ∧ t.regex l = true ∧
          f = { test_name := t.name, filepath := fp, line_number := i + j,
                line_contents := l } := by
  induction lines with
  | nil =>
    intro i f
    simp [collectLinesLoop]
  | cons line rest ih =>
    intro i f
    simp only [collectLinesLoop, List.mem_append]
    constructor
    · intro h
      rcases h with h | h
      · by_cases hr : t.regex line
        · refine ⟨0, line, by simp, hr, ?_⟩
          simp only [hr, if_true, List.mem_singleton] at h
          simpa using h
        · simp [hr] at h
      · rcases (ih (i + 1) f).mp h with ⟨j, l, hj, hrl, hf⟩
        refine ⟨j + 1, l, by simpa using hj, hrl, ?_⟩
        have hnum : i + (j + 1) = i + 1 + j := by omega
        rw [hnum]
        exact hf
    · rintro ⟨j, l, hj, hrl, hf⟩
      cases j with
      | zero =>
        left
        have hl : line = l := by simpa using hj
        subst hl
        simp only [hrl, if_true, List.mem_singleton]
        simpa using hf
      | succ j =>
        right
        refine (ih (i + 1) f).mpr ⟨j, l, by simpa using hj, hrl, ?_⟩
        have hnum : i + 1 + j = i + (j + 1) := by omega
        rw [hnum]
        exact hf

theorem length_collectLinesLoop (t : RegexBasedRatchetTest) (fp : String)
    (lines : List String) :
    ∀ i, (collectLinesLoop t fp i lines).length =
      (lines.filter (fun l => t.regex l)).length := by
  induction lines with
  | nil => intro i; simp [collectLinesLoop]
  | cons line rest ih =>
    intro i
    by_cases hr : t.regex line <;>
      simp [collectLinesLoop, List.filter_cons, hr, ih (i + 1)]

theorem collectLinesLoop_inj (t : RegexBasedRatchetTest) (fp : String)
    (lines : List String) {i : Nat} {f g : TestFailure}
    (hf : f ∈ collectLinesLoop t fp i lines)
    (hg : g ∈ collectLinesLoop t fp i lines)
    (h : f.line_number = g.line_number) : f = g := by
  rcases (mem_collectLinesLoop t fp lines i f).mp hf with ⟨j, l, hj, _, hfe⟩
  rcases (mem_collectLinesLoop t fp lines i g).mp hg with ⟨k, m, hk, _, hge⟩
  have hjn : f.line_number = i + j := by rw [hfe]
  have hkn : g.line_number = i + k := by rw [hge]
  have hjk : j = k := by omega
  subst hjk
  have hlm : l = m := by
    rw [hj] at hk
    exact Option.some.inj hk
  subst hlm
  rw [hfe, hge]

end CodeRatchet

namespace CodeRatchet

/-- C10: for every `TestFailure` `f`, `TestFailure.from_failure f` with no
overrides returns a failure whose `test_name`, `filepath`, `line_number`,
`line_contents`, `commit_hash`, `commit_date` and `commit_message` equal
`f`'s, and whose `commit_author` field is always `none` — `f`'s
`commit_author` is never copied to the result. -/
theorem from_failure_copies_all_but_author (f : TestFailure) :
    (f.from_failure {}).test_name = f.test_name ∧
    (f.from_failure {}).filepath = f.filepath ∧
    (f.from_failure {}).line_number = f.line_number ∧
    (f.from_failure {}).line_contents = f.line_contents ∧
    (f.from_failure {}).commit_hash = f.commit_hash ∧
    (f.from_failure {}).commit_date = f.commit_date ∧
    (f.from_failure {}).commit_message = f.commit_message ∧
    (f.from_failure {}).commit_author = none :=
  ⟨rfl, rfl, rfl, rfl, rfl, rfl, rfl, rfl⟩

/-- Witness for C10: the theorem applied to a concrete failure carrying a
`commit_author`. -/
theorem from_failure_copies_all_but_author_witness :
    (TestFailure.from_failure
        { test_name := "t", filepath := "a.py", line_number := 3,
          line_contents := "x", commit_hash := some "h",
          commit_message := some "m", commit_author := some "alice",
          commit_date := some "2024" } {}).commit_author = none :=
  (from_failure_copies_all_but_author
    { test_name := "t", filepath := "a.py", line_number := 3,
      line_contents := "x", commit_hash := some "h",
      commit_message := some "m", commit_author := some "alice",
      commit_date := some "2024" }).2.2.2.2.2.2.2

/-- C1, code-bug demonstration: `get_total_count_from_files` on two included
files with one match each.  Each per-file collection replaces the failure
tuple instead of accumulating onto it, so the evaluation ends holding only
the last included file's failure and reports a total of 1, while the
specified accumulate-and-sum semantics gives 2. -/
theorem get_total_count_keeps_only_last_file :
    (printTest.get_total_count_from_files twoFilesOneMatchEach).2 = 1 ∧
    (printTest.get_total_count_from_files twoFilesOneMatchEach).1 =
      [{ test_name := "no_print", filepath := "b.py", line_number := 1,
         line_contents := "print('b')" }] ∧
    specAccumulatedTotal printTest twoFilesOneMatchEach = 2 :=
  ⟨by decide, by decide, by decide⟩

/-- C4, code-bug demonstration: `FullFileRatchetTest.collect_failures_from_lines`
passes `regex_flags` as the `pos` argument of `Pattern.search`.  With
`regex_flags = 2` (the value of `re.IGNORECASE`) the search for `ab` in the
blob `"ab"` starts at index 2 and misses the match at index 0, and — the
no-match path not touching `self._failures` — the stale failure from a
previous evaluation is retained instead of being replaced by zero failures.
With `regex_flags = 0` the same input yields the single whole-blob failure
at line 1. -/
theorem full_file_flags_used_as_position :
    fullFileAbTest.collect_failures_from_lines ["ab"] "a.py" [staleFailure] =
      [staleFailure] ∧
    fullFileAbTestNoFlags.collect_failures_from_lines ["ab"] "a.py"
        [staleFailure] =
      [{ test_name := "full_ab", filepath := "a.py", line_number := 1,
         line_contents := "ab" }] :=
  ⟨by decide, by decide⟩

/-- C8, code-bug demonstration: with patterns `["!keep.py", "*.py"]`, the
glob `*.py` excludes `nested/other.py`, but the root-level negation
`!keep.py` is matched against the bare filename at any depth, so it
restores inclusion for the nested `nested/keep.py` just as for the
root-level `keep.py` — contradicting the claim (and the function's own
comment) that a root-level negation only un-excludes files at root
depth. -/
theorem root_negation_unexcludes_nested_file :
    should_exclude_file "nested/keep.py" ["!keep.py", "*.py"] = false ∧
    should_exclude_file "keep.py" ["!keep.py", "*.py"] = false ∧
    should_exclude_file "nested/other.py" ["!keep.py", "*.py"] = true :=
  ⟨by decide, by decide, by decide⟩

/-- C6, counterexample: the Line Match strategy of `RegexBasedRatchetTest`
stores the matched line exactly as provided; on the line `"print('a') "`
(trailing blank) the emitted failure's text keeps the trailing blank,
differing from the specified trailing-whitespace-stripped text. -/
theorem line_match_text_not_stripped :
    printTest.collect_failures_from_lines ["print('a') "] "f.py" [] =
      [{ test_name := "no_print", filepath := "f.py", line_number := 1,
         line_contents := "print('a') " }] ∧
    specLineMatchFailures printTest ["print('a') "] "f.py" =
      [{ test_name := "no_print", filepath := "f.py", line_number := 1,
         line_contents := "print('a')" }] ∧
    printTest.collect_failures_from_lines ["print('a') "] "f.py" [] ≠
      specLineMatchFailures printTest ["print('a') "] "f.py" :=
  ⟨by decide, by decide, by decide⟩

/-- C6, amended: for every regex line test and included file, exactly one
failure is emitted per line the pattern matches, carrying the 1-based line
number and the matched line's text exactly as provided (no
trailing-whitespace stripping). -/
theorem line_match_characterization (t : RegexBasedRatchetTest)
    (lines : List String) (fp : String) (failures0 : List TestFailure)
    (hinc : t.should_include_file fp = true) :
    (∀ f, f ∈ t.collect_failures_from_lines lines fp failures0 ↔
      ∃ j l, lines[j]? = some l ∧ t.regex l = true ∧
        f = { test_name := t.name, filepath := fp, line_number := j + 1,
              line_contents := l }) ∧
    (t.collect_failures_from_lines lines fp failures0).length =
      (lines.filter (fun l => t.regex l)).length := by
  unfold RegexBasedRatchetTest.collect_failures_from_lines
  rw [hinc]
  simp only [Bool.not_true, Bool.false_eq_true, if_false]
  constructor
  · intro f
    rw [mem_collectLinesLoop]
    constructor <;> rintro ⟨j, l, h1, h2, h3⟩ <;>
      exact ⟨j, l, h1, h2, by rwa [Nat.add_comm] at h3⟩
  · exact length_collectLinesLoop t fp lines 1

/-- Witness for the amended C6 at a concrete included file. -/
theorem line_match_characterization_witness :
    printTest.should_include_file "w6.py" = true ∧
    ((∀ f, f ∈ printTest.collect_failures_from_lines ["print('a') "] "w6.py" []
        ↔ ∃ j l, (["print('a') "])[j]? = some l ∧ printTest.regex l = true ∧
          f = { test_name := printTest.name, filepath := "w6.py",
                line_number := j + 1, line_contents := l }) ∧
      (printTest.collect_failures_from_lines ["print('a') "] "w6.py"
          []).length =
        ((["print('a') "]).filter (fun l => printTest.regex l)).length) :=
  ⟨by decide,
    line_match_characterization printTest ["print('a') "] "w6.py" []
      (by decide)⟩

end CodeRatchet

namespace CodeRatchet

/-- C2, counterexample: on `["class Foo:", "self.Foo.bar()"]`, the first
pass flags line 1; the pattern derived from that candidate by the
caller-supplied function (`self\.Foo\.`) matches the following line, yet
the two-pass test reports nothing, because collection consults only the
configured second-pass pattern (`XYZ` here) and never the derived one. -/
theorem two_pass_derived_pattern_counterexample :
    twoPassExample.first_pass.collect_failures_from_lines twoPassLines
        "f.py" [] =
      [{ test_name := "first_pass", filepath := "f.py", line_number := 1,
         line_contents := "class Foo:" }] ∧
    ((twoPassLines.drop 1).any (fun l =>
        toSecondPassMatcher
          { test_name := "first_pass", filepath := "f.py", line_number := 1,
            line_contents := "class Foo:" } l)) = true ∧
    twoPassExample.collect_failures_from_lines twoPassLines "f.py" [] = [] ∧
    ¬ twoPassReportsByDerivedPattern twoPassExample toSecondPassMatcher
        twoPassLines "f.py" [] :=
  ⟨by decide, by decide, by decide, by
    unfold twoPassReportsByDerivedPattern
    decide⟩

/-- C2, amended: for every two-pass test and file included by its first
pass, a first-pass candidate failure is reported (unchanged in file path
and line number, renamed to the two-pass test) if and only if at least one
line after the candidate's line matches the CONFIGURED second-pass pattern;
the caller-supplied failure-to-pattern function plays no part in
collection. -/
theorem two_pass_reports_by_configured_pattern (t : TwoPassRatchetTest)
    (lines : List String) (fp : String) (first0 : List TestFailure)
    (hinc : t.first_pass.should_include_file fp = true) :
    ∀ f ∈ t.first_pass.collect_failures_from_lines lines fp first0,
      (({ test_name := t.name, filepath := fp, line_number := f.line_number,
          line_contents := f.line_contents } : TestFailure)
          ∈ t.collect_failures_from_lines lines fp first0
        ↔ (lines.drop f.line_number).any
            (fun l => t.second_pass_regex l) = true) := by
  intro f hf
  have hcol : t.first_pass.collect_failures_from_lines lines fp first0 =
      collectLinesLoop t.first_pass fp 1 lines := by
    unfold RegexBasedRatchetTest.collect_failures_from_lines
    rw [hinc]
    simp
  unfold TwoPassRatchetTest.collect_failures_from_lines
  constructor
  · intro hmem
    rw [List.mem_filterMap] at hmem
    rcases hmem with ⟨g, hg, hge⟩
    by_cases hc :
        (lines.drop g.line_number).any (fun l => t.second_pass_regex l) = true
    · rw [if_pos hc] at hge
      have hrec := Option.some.inj hge
      have hln : g.line_number = f.line_number := by
        simpa using congrArg TestFailure.line_number hrec
      have hgf : g = f := by
        rw [hcol] at hf hg
        exact collectLinesLoop_inj t.first_pass fp lines hg hf hln
      rw [← hgf]
      exact hc
    · rw [if_neg hc] at hge
      cases hge
  · intro hany
    rw [List.mem_filterMap]
    refine ⟨f, hf, ?_⟩
    rw [if_pos hany]

/-- Witness for the amended C2 at the concrete two-pass instance. -/
theorem two_pass_reports_by_configured_pattern_witness :
    twoPassExample.first_pass.should_include_file "f.py" = true ∧
    (∀ f ∈ twoPassExample.first_pass.collect_failures_from_lines twoPassLines
        "f.py" [],
      (({ test_name := twoPassExample.name, filepath := "f.py",
          line_number := f.line_number,
          line_contents := f.line_contents } : TestFailure)
          ∈ twoPassExample.collect_failures_from_lines twoPassLines "f.py" []
        ↔ (twoPassLines.drop f.line_number).any
            (fun l => twoPassExample.second_pass_regex l) = true)) :=
  ⟨by decide,
    two_pass_reports_by_configured_pattern twoPassExample twoPassLines
      "f.py" [] (by decide)⟩

end CodeRatchet

namespace CodeRatchet

theorem strategyCountOnExample_eq (r : String → Bool) (e : String) :
    strategyCountOnExample r e = if r e then 1 else 0 := by
  unfold strategyCountOnExample RegexBasedRatchetTest.collect_failures_from_lines
  simp only [RegexBasedRatchetTest.should_include_file]
  by_cases h : r e <;> simp [h, collectLinesLoop]

/-- C7: constructing a regex-based ratchet test raises a configuration error
(at construction time, embedded as the `Except.error` outcome of the smart
constructor) if and only if the pattern fails to compile, or some
configured should-match example does not produce exactly one failure under
the Line Match strategy in isolation, or some should-not-match example
produces one; construction succeeds otherwise. -/
theorem mk_regex_test_error_iff (name pattern : String)
    (compiled : Option (String → Bool)) (mex nmex : List String)
    (etf : Bool) (ifr : Option (String → Bool)) :
    (∃ msg, mkRegexBasedRatchetTest name pattern compiled mex nmex etf ifr =
        Except.error msg) ↔
      (compiled = none ∨
        ∃ r, compiled = some r ∧
          ((∃ e ∈ mex, strategyCountOnExample r e ≠ 1) ∨
           (∃ e ∈ nmex, strategyCountOnExample r e ≠ 0))) := by
  unfold mkRegexBasedRatchetTest
  cases compiled with
  | none => simp
  | some r =>
    rcases hm : mex.find? (fun e => !r e) with _ | e
    · rcases hn : nmex.find? (fun e => r e) with _ | e
      · simp only [hm, hn]
        constructor
        · rintro ⟨msg, hmsg⟩
          cases hmsg
        · rintro (h | ⟨r', hr', hcase⟩)
          · cases h
          · have hrr : r' = r := (Option.some.inj hr').symm
            rw [hrr] at hcase
            rcases hcase with ⟨e, he, hne⟩ | ⟨e, he, hne⟩
            · have hre : ¬ (!r e) = true := List.find?_eq_none.mp hm e he
              have : r e = true := by
                cases hre2 : r e
                · exact absurd (by simp [hre2]) hre
                · rfl
              rw [strategyCountOnExample_eq, if_pos this] at hne
              exact absurd rfl hne
            · have hre : ¬ r e = true := List.find?_eq_none.mp hn e he
              rw [strategyCountOnExample_eq, if_neg hre] at hne
              exact absurd rfl hne
      · simp only [hm, hn]
        constructor
        · intro _
          refine Or.inr ⟨r, rfl, Or.inr ⟨e, List.mem_of_find?_eq_some hn, ?_⟩⟩
          have hre : r e = true := by simpa using List.find?_some hn
          rw [strategyCountOnExample_eq, if_pos hre]
          exact one_ne_zero
        · intro _
          exact ⟨"Non-match example matches pattern: " ++ e, rfl⟩
    · simp only [hm]
      constructor
      · intro _
        refine Or.inr ⟨r, rfl, Or.inl ⟨e, List.mem_of_find?_eq_some hm, ?_⟩⟩
        have hre : (!r e) = true := by simpa using List.find?_some hm
        have hre2 : ¬ r e = true := by
          cases h2 : r e
          · simp
          · rw [h2] at hre
            cases hre
        rw [strategyCountOnExample_eq, if_neg hre2]
        exact zero_ne_one
      · intro _
        exact ⟨"Match example does not match pattern: " ++ e, rfl⟩

/-- Witness for C7 at a concrete configuration: a should-match example that
the compiled pattern does not match makes construction fail. -/
theorem mk_regex_test_error_iff_witness :
    (∃ msg, mkRegexBasedRatchetTest "t7" "print\\("
        (some (fun l => strContains l "print(")) ["log('a')"] [] false none =
        Except.error msg) ↔
      ((some (fun l : String => strContains l "print(")) = none ∨
        ∃ r, (some (fun l : String => strContains l "print(")) = some r ∧
          ((∃ e ∈ ["log('a')"], strategyCountOnExample r e ≠ 1) ∨
           (∃ e ∈ ([] : List String), strategyCountOnExample r e ≠ 0))) :=
  mk_regex_test_error_iff "t7" "print\\("
    (some (fun l => strContains l "print(")) ["log('a')"] [] false none

end CodeRatchet

namespace CodeRatchet

theorem mem_compare_ratchets {tests : List RegexBasedRatchetTest}
    {previous_state current_state : RepoState} {c : RatchetComparison} :
    c ∈ compare_ratchets tests previous_state current_state ↔
      ∃ t ∈ tests,
        c = comparisonFor t (current_state.stored_counts t.name)
          (previous_state.stored_counts t.name) := by
  unfold compare_ratchets
  rw [List.mem_insertionSort]
  simp [List.mem_map, eq_comm]

/-- C3, counterexample: with one test whose pattern matches a line of the
current checked-out tree but whose stored ratchet value is 0 in both
states, the comparator reports previous and current counts 0 — it reads
`load_ratchet_count` from each checked-out state instead of evaluating the
test against that state's files, which would give a current count of 1. -/
theorem comparator_reads_stored_not_evaluated :
    specAccumulatedTotal evalDivergeTest curRepoState.files = 1 ∧
    (compare_ratchets [evalDivergeTest] prevRepoState curRepoState).map
        (fun c => (c.test_name, c.previous_count, c.current_count)) =
      [("t3", 0, 0)] ∧
    ¬ comparatorUsesEvaluatedCounts [evalDivergeTest] prevRepoState
        curRepoState :=
  ⟨by decide, by decide, by
    unfold comparatorUsesEvaluatedCounts
    decide⟩

/-- C3, amended: for every pair of references, the comparator checks out the
previous reference and reads each test's stored count from that state's
ratchet values file, then does the same for the current reference; the
counts it compares are those two stored per-test values, not evaluations of
the checked-out file trees. -/
theorem compare_ratchets_uses_stored_counts
    (tests : List RegexBasedRatchetTest)
    (previous_state current_state : RepoState) :
    ∀ c ∈ compare_ratchets tests previous_state current_state,
      (∃ t ∈ tests, t.name = c.test_name) ∧
      c.previous_count = previous_state.stored_counts c.test_name ∧
      c.current_count = current_state.stored_counts c.test_name := by
  intro c hc
  rcases mem_compare_ratchets.mp hc with ⟨t, ht, rfl⟩
  exact ⟨⟨t, ht, rfl⟩, rfl, rfl⟩

/-- Witness for the amended C3 at the concrete comparator run. -/
theorem compare_ratchets_uses_stored_counts_witness :
    (∃ t ∈ [evalDivergeTest],
      t.name = (comparisonFor evalDivergeTest 0 0).test_name) ∧
    (comparisonFor evalDivergeTest 0 0).previous_count =
      prevRepoState.stored_counts
        (comparisonFor evalDivergeTest 0 0).test_name ∧
    (comparisonFor evalDivergeTest 0 0).current_count =
      curRepoState.stored_counts
        (comparisonFor evalDivergeTest 0 0).test_name :=
  compare_ratchets_uses_stored_counts [evalDivergeTest] prevRepoState
    curRepoState (comparisonFor evalDivergeTest 0 0)
    (mem_compare_ratchets.mpr ⟨evalDivergeTest, List.mem_singleton_self _, rfl⟩)

theorem comparisonFor_percent_posInf_iff (t : RegexBasedRatchetTest)
    (cur prev : Nat) :
    (comparisonFor t cur prev).percentage_change = PercentChange.posInf ↔
      (prev = 0 ∧ 0 < cur) := by
  unfold comparisonFor
  dsimp only
  split_ifs with h1 h2
  · simp only [reduceCtorEq, false_iff]
    omega
  · simp only [reduceCtorEq, false_iff]
    omega
  · simp only [true_iff]
    omega

/-- C5: every `RatchetComparison` produced by `compare_ratchets` has
difference equal to current count minus previous count, percentage change
`+inf` exactly when the previous count is 0 and the current count positive,
percentage change 0.0 when both counts are 0, and `is_worse` true exactly
when the difference is positive; the returned list is sorted by descending
difference with ties broken by test name ascending. -/
theorem compare_ratchets_fields_and_order
    (tests : List RegexBasedRatchetTest)
    (previous_state current_state : RepoState) :
    (∀ c ∈ compare_ratchets tests previous_state current_state,
      c.difference = (c.current_count : Int) - (c.previous_count : Int) ∧
      (c.percentage_change = PercentChange.posInf ↔
        (c.previous_count = 0 ∧ 0 < c.current_count)) ∧
      ((c.previous_count = 0 ∧ c.current_count = 0) →
        c.percentage_change = PercentChange.fin 0) ∧
      (c.is_worse = true ↔ 0 < c.difference)) ∧
    (compare_ratchets tests previous_state current_state).Sorted cmpKeyLe := by
  constructor
  · intro c hc
    rcases mem_compare_ratchets.mp hc with ⟨t, _, rfl⟩
    refine ⟨rfl, comparisonFor_percent_posInf_iff t _ _, ?_, ?_⟩
    · rintro ⟨hp, hc0⟩
      unfold comparisonFor
      dsimp only at hp hc0 ⊢
      rw [if_pos ⟨hc0, hp⟩]
    · exact decide_eq_true_iff
  · unfold compare_ratchets
    exact List.sorted_insertionSort cmpKeyLe _

/-- Witness for C5 at a concrete comparator run. -/
theorem compare_ratchets_fields_and_order_witness :
    (∀ c ∈ compare_ratchets [evalDivergeTest] prevRepoState curRepoState,
      c.difference = (c.current_count : Int) - (c.previous_count : Int) ∧
      (c.percentage_change = PercentChange.posInf ↔
        (c.previous_count = 0 ∧ 0 < c.current_count)) ∧
      ((c.previous_count = 0 ∧ c.current_count = 0) →
        c.percentage_change = PercentChange.fin 0) ∧
      (c.is_worse = true ↔ 0 < c.difference)) ∧
    (compare_ratchets [evalDivergeTest] prevRepoState curRepoState).Sorted
      cmpKeyLe :=
  compare_ratchets_fields_and_order [evalDivergeTest] prevRepoState
    curRepoState

end CodeRatchet

namespace CodeRatchet

theorem dedupFailures_spec (l : List TestFailure) :
    ∀ seen,
      (dedupFailures l seen).Pairwise
        (fun a b => failureKey a ≠ failureKey b) ∧
      (∀ f ∈ dedupFailures l seen, failureKey f ∉ seen) ∧
      (∀ f ∈ dedupFailures l seen, f ∈ l) ∧
      (∀ f ∈ l, failureKey f ∈ seen ∨
        ∃ g ∈ dedupFailures l seen, failureKey g = failureKey f) := by
  induction l with
  | nil => intro seen; simp [dedupFailures]
  | cons f fs ih =>
    intro seen
    by_cases h : failureKey f ∈ seen
    · rw [dedupFailures, if_pos h]
      obtain ⟨h1, h2, h3, h4⟩ := ih seen
      refine ⟨h1, h2, fun g hg => List.mem_cons_of_mem f (h3 g hg), ?_⟩
      intro g hg
      rcases List.mem_cons.mp hg with rfl | hg
      · exact Or.inl h
      · exact h4 g hg
    · rw [dedupFailures, if_neg h]
      obtain ⟨h1, h2, h3, h4⟩ := ih (failureKey f :: seen)
      refine ⟨?_, ?_, ?_, ?_⟩
      · refine List.Pairwise.cons ?_ h1
        intro g hg he
        exact h2 g hg (by rw [← he]; exact List.mem_cons_self _ _)
      · intro g hg
        rcases List.mem_cons.mp hg with rfl | hg
        · exact h
        · intro hin
          exact h2 g hg (List.mem_cons_of_mem _ hin)
      · intro g hg
        rcases List.mem_cons.mp hg with rfl | hg
        · exact List.mem_cons_self _ _
        · exact List.mem_cons_of_mem _ (h3 g hg)
      · intro g hg
        rcases List.mem_cons.mp hg with rfl | hg
        · exact Or.inr ⟨g, List.mem_cons_self _ _, rfl⟩
        · rcases h4 g hg with hin | ⟨k, hk, hke⟩
          · rcases List.mem_cons.mp hin with he | hin
            · exact Or.inr ⟨f, List.mem_cons_self _ _, he.symm⟩
            · exact Or.inl hin
          · exact Or.inr ⟨k, List.mem_cons_of_mem _ hk, hke⟩

/-- C9: `get_recently_broken_ratchets` deduplicates the collected failures
by (test name, file path, line number, line text) — no two returned
failures share that key, returned failures all come from the collection,
and every collected failure's key is represented in the sorted
deduplicated list — returns them sorted ascending by (file path, line
number), returns at most `limit` of them (on the commit branch too), and,
when commit attribution is requested, a retained failure whose file has no
commit history (`gitLog` returns `none`) is still returned, with its
commit fields unset. -/
theorem get_recently_broken_ratchets_spec
    (tests : List RegexBasedRatchetTest)
    (files : List (String × List String)) (limit : Nat)
    (gitLog : String → Option (String × Nat × String)) :
    (get_recently_broken_ratchets tests files limit).Pairwise
      (fun a b => failureKey a ≠ failureKey b) ∧
    (get_recently_broken_ratchets tests files limit).Sorted recentKeyLe ∧
    (get_recently_broken_ratchets tests files limit).length ≤ limit ∧
    (∀ f ∈ get_recently_broken_ratchets tests files limit,
      f ∈ collectAllFailures tests files) ∧
    (∀ f ∈ collectAllFailures tests files,
      ∃ g ∈ ((dedupFailures (collectAllFailures tests files) []).insertionSort
        recentKeyLe), failureKey g = failureKey f) ∧
    (get_recently_broken_ratchets_with_commits tests files limit
      gitLog).length ≤ limit ∧
    (∀ f ∈ get_recently_broken_ratchets tests files limit,
      gitLog f.filepath = none →
        ({ test_name := f.test_name, filepath := f.filepath,
           line_number := f.line_number, line_contents := f.line_contents }
          : BrokenRatchet) ∈
          get_recently_broken_ratchets_with_commits tests files limit
            gitLog) := by
  obtain ⟨hpw, _, hsub, hcov⟩ :=
    dedupFailures_spec (collectAllFailures tests files) []
  have hperm : List.Perm
      ((dedupFailures (collectAllFailures tests files) []).insertionSort
        recentKeyLe) (dedupFailures (collectAllFailures tests files) []) :=
    List.perm_insertionSort recentKeyLe _
  have hpwS :
      ((dedupFailures (collectAllFailures tests files) []).insertionSort
        recentKeyLe).Pairwise (fun a b => failureKey a ≠ failureKey b) :=
    (hperm.pairwise_iff (fun hxy => hxy.symm)).mpr hpw
  refine ⟨?_, ?_, ?_, ?_, ?_, ?_, ?_⟩
  · exact List.Pairwise.sublist (List.take_sublist _ _) hpwS
  · exact List.Pairwise.sublist (List.take_sublist _ _)
      (List.sorted_insertionSort recentKeyLe _)
  · exact List.length_take_le _ _
  · intro f hf
    exact hsub f (hperm.mem_iff.mp (List.mem_of_mem_take hf))
  · intro f hf
    rcases hcov f hf with hin | ⟨g, hg, hke⟩
    · cases hin
    · exact ⟨g, hperm.mem_iff.mpr hg, hke⟩
  · exact List.length_take_le _ _
  · intro f hf hnone
    unfold get_recently_broken_ratchets_with_commits
    have hlen :
        ((((dedupFailures (collectAllFailures tests files) []).insertionSort
          recentKeyLe).take limit).map (attachCommitInfo gitLog)).length ≤
          limit := by
      rw [List.length_map]
      exact List.length_take_le _ _
    rw [List.take_of_length_le hlen]
    have himg : attachCommitInfo gitLog f =
        { test_name := f.test_name, filepath := f.filepath,
          line_number := f.line_number, line_contents := f.line_contents } := by
      unfold attachCommitInfo
      rw [hnone]
    exact himg ▸ List.mem_map_of_mem (attachCommitInfo gitLog) hf

/-- Witness for C9 at a concrete run: two files with matches, limit 2, and
no git history for any file. -/
theorem get_recently_broken_ratchets_spec_witness :
    (get_recently_broken_ratchets [printTest] twoFilesOneMatchEach 2).Pairwise
      (fun a b => failureKey a ≠ failureKey b) ∧
    (get_recently_broken_ratchets [printTest] twoFilesOneMatchEach 2).Sorted
      recentKeyLe ∧
    (get_recently_broken_ratchets [printTest] twoFilesOneMatchEach 2).length
      ≤ 2 ∧
    (∀ f ∈ get_recently_broken_ratchets [printTest] twoFilesOneMatchEach 2,
      f ∈ collectAllFailures [printTest] twoFilesOneMatchEach) ∧
    (∀ f ∈ collectAllFailures [printTest] twoFilesOneMatchEach,
      ∃ g ∈ ((dedupFailures
          (collectAllFailures [printTest] twoFilesOneMatchEach)
          []).insertionSort recentKeyLe), failureKey g = failureKey f) ∧
    (get_recently_broken_ratchets_with_commits [printTest]
      twoFilesOneMatchEach 2 (fun _ => none)).length ≤ 2 ∧
    (∀ f ∈ get_recently_broken_ratchets [printTest] twoFilesOneMatchEach 2,
      (fun (_ : String) => (none : Option (String × Nat × String)))
          f.filepath = none →
        ({ test_name := f.test_name, filepath := f.filepath,
           line_number := f.line_number, line_contents := f.line_contents }
          : BrokenRatchet) ∈
          get_recently_broken_ratchets_with_commits [printTest]
            twoFilesOneMatchEach 2 (fun _ => none)) :=
  get_recently_broken_ratchets_spec [printTest] twoFilesOneMatchEach 2
    (fun _ => none)

end CodeRatchet
